import Mathlib

/-
  Verification of the wap-bot thread-summarization pipeline.

  Shallow embedding of:
  - pkg/musicextractors/url.go        (regexURLExtractor and the three provider URL extractors)
  - pkg/musicextractors/title.go      (SpotifyTitleExtractor, with the HTTP response as input)
  - internal/domain (message processor: extractMusicURL, SummarizeThread, createCSV)
  - internal/services/bot.go          (handleEventsAPI, handleMentions, processThread),
    with Slack API collaborators modeled as an oracle of call results and the outbound
    calls recorded in an action trace.

  The Go regular expressions are compiled by hand into deterministic matchers.  Each
  pattern is a concatenation of literals, optional literals, a two-way literal
  alternation and greedy character-class repetitions; for these shapes Go's (RE2,
  leftmost-first) matching is equivalent to the committed greedy matching implemented
  here, because each optional/alternative literal is never a viable head of the
  branch that skips it (the follow-up literal starts with a different character),
  and nothing that can fail follows a greedy repetition except a literal whose first
  character lies outside the repeated class.
-/

set_option maxRecDepth 4000

/-! ## Provider and error types (pkg/musicextractors/types.go, errors.go) -/

/-- ExtractProvider is a string type in Go (`type ExtractProvider string`). -/
abbrev ExtractProvider := String

def SpotifyProvider : ExtractProvider := "spotify"

def YouTubeProvider : ExtractProvider := "youtube"

/-- Name kept from the source, typo included. -/
def YoutTubeMusicProvider : ExtractProvider := "youtube-music"

/-- The sentinel errors of pkg/musicextractors/errors.go. -/
inductive ExtractError where
  | noURLFound
  | multipleResult
  | invalidRegexCompiled
  | noTitleFound
  | requestFailed
deriving DecidableEq, Repr

deriving instance DecidableEq for Except

/-! ## Hand-compiled regex matchers -/

/-- Go regexp `\w` (ASCII word character). -/
def isWordChar (c : Char) : Bool := c.isAlphanum || c = '_'

/-- Character class `[\w\-?=&]` of the Spotify pattern. -/
def spotifyIdChar (c : Char) : Bool :=
  isWordChar c || c = '-' || c = '?' || c = '=' || c = '&'

/-- Character class `[\w\-]` of the YouTube patterns. -/
def ytIdChar (c : Char) : Bool := isWordChar c || c = '-'

/-- Character class `[\w=&\-]` of the YouTube Music pattern's optional tail. -/
def ytmTailChar (c : Char) : Bool := isWordChar c || c = '=' || c = '&' || c = '-'

/-- Match a literal: on success return the rest of the input. -/
def matchLit : List Char → List Char → Option (List Char)
  | [], l => some l
  | _ :: _, [] => none
  | c :: cs, d :: ds => if c = d then matchLit cs ds else none

/-- Match an optional literal (regex `(?:lit)?`), committing when it is present. -/
def matchOpt (lit l : List Char) : List Char := (matchLit lit l).getD l

/-- Greedy `[class]+`: consume a maximal nonempty run of class characters. -/
def matchClassPlus (p : Char → Bool) (l : List Char) : Option (List Char) :=
  match l.span p with
  | ([], _) => none
  | (_ :: _, rest) => some rest

/-- The shared `https?://` head of all three URL patterns. -/
def schemeAt (l : List Char) : Option (List Char) := do
  let r ← matchLit "http".data l
  let r := matchOpt "s".data r
  matchLit "://".data r

/-- Matcher for `https?://(?:open\.)?spotify\.com/track/[\w\-?=&]+` at the head of
the input; returns the length of the match. -/
def spotifyMatchAt (l : List Char) : Option Nat := do
  let r ← schemeAt l
  let r := matchOpt "open.".data r
  let r ← matchLit "spotify.com/track/".data r
  let r ← matchClassPlus spotifyIdChar r
  pure (l.length - r.length)

/-- Matcher for `https?://(?:www\.)?(?:youtube\.com/watch\?v=|youtu\.be/)[\w\-]+`. -/
def youtubeMatchAt (l : List Char) : Option Nat := do
  let r ← schemeAt l
  let r := matchOpt "www.".data r
  let r ← matchLit "youtube.com/watch?v=".data r <|> matchLit "youtu.be/".data r
  let r ← matchClassPlus ytIdChar r
  pure (l.length - r.length)

/-- Matcher for `https?://music\.youtube\.com/watch\?v=[\w\-]+(?:&[\w=&\-]+)?`. -/
def ytMusicMatchAt (l : List Char) : Option Nat := do
  let r ← schemeAt l
  let r ← matchLit "music.youtube.com/watch?v=".data r
  let r ← matchClassPlus ytIdChar r
  let r := match r with
    | '&' :: r' =>
      match r'.span ytmTailChar with
      | ([], _) => r
      | (_ :: _, r'') => r''
    | _ => r
  pure (l.length - r.length)

/-- Go regexp's FindAllString scan: try the matcher at every position, left to
right; record a match and resume after its end (our matchers never match the
empty string, so the Go empty-match advance never fires, but it is kept for
totality).  Fuel is the initial length: every step consumes at least one
character and one unit of fuel, so the fuel never runs out first. -/
def findAllAux (m : List Char → Option Nat) : Nat → List Char → List (List Char)
  | 0, _ => []
  | _ + 1, [] => []
  | fuel + 1, c :: rest =>
    match m (c :: rest) with
    | some (n + 1) =>
      (c :: rest).take (n + 1) :: findAllAux m fuel ((c :: rest).drop (n + 1))
    | some 0 => findAllAux m fuel rest
    | none => findAllAux m fuel rest

def findAll (m : List Char → Option Nat) (l : List Char) : List (List Char) :=
  findAllAux m l.length l

/-- All pattern occurrences of a matcher in a text (re.FindAllString(text, -1)). -/
abbrev occurrences (m : List Char → Option Nat) (text : String) : List (List Char) :=
  findAll m text.data

/-! ## pkg/musicextractors/url.go -/

/-- regexURLExtractor: nil match list yields ErrNoURLFound, length other than one
yields ErrMultipleResult, otherwise the single match. -/
def regexURLExtractor (text : String) (m : List Char → Option Nat) :
    Except ExtractError String :=
  match findAll m text.data with
  | [] => .error .noURLFound
  | [u] => .ok (String.mk u)
  | _ :: _ :: _ => .error .multipleResult

/-- Go signature (string, ExtractProvider, error): the provider tag is returned
alongside the result even on error. -/
abbrev MusicURLExtractorFunc := String → Except ExtractError String × ExtractProvider

abbrev TitleExtractorFunc := String → Except ExtractError String

def SpotifyURLExtractor (text : String) : Except ExtractError String × ExtractProvider :=
  (regexURLExtractor text spotifyMatchAt, SpotifyProvider)

def YouTubeURLExtractor (text : String) : Except ExtractError String × ExtractProvider :=
  (regexURLExtractor text youtubeMatchAt, YouTubeProvider)

def YouTubeMusicURLExtractor (text : String) : Except ExtractError String × ExtractProvider :=
  (regexURLExtractor text ytMusicMatchAt, YoutTubeMusicProvider)

/-- The extractor registry wired up in cmd/bot/main.go (`var urlProcessors`).  Go
iterates the map in an unspecified order, so theorems quantify over permutations
of this list. -/
def urlProcessors : List (ExtractProvider × MusicURLExtractorFunc) :=
  [(SpotifyProvider, SpotifyURLExtractor),
   (YouTubeProvider, YouTubeURLExtractor),
   (YoutTubeMusicProvider, YouTubeMusicURLExtractor)]

/-! ## internal/domain (message processor) -/

/-- Go struct parsedMusicLink; the Go field `Type` is called `typ` here. -/
structure parsedMusicLink where
  Title : String
  URL : String
  typ : ExtractProvider
deriving DecidableEq, Repr

/-- Error values produced by the domain layer.  `raw` is the bare sentinel
returned when every provider was exhausted; the other constructors model the
fmt.Errorf wrapping contexts. -/
inductive ProcErr where
  | raw (e : ExtractError)
  | urlParsing (e : ExtractError)
  | titleParsing (e : ExtractError)
deriving DecidableEq, Repr

/-- Result of running a piece of Go code: `panics` models a runtime panic (here
only the call of a nil function obtained from a map lookup with a missing key),
`fails` a returned non-nil error, `ok` a normal return. -/
inductive Outcome (ε α : Type) where
  | panics
  | fails (e : ε)
  | ok (a : α)
deriving DecidableEq, Repr

/-- extractMusicURL: iterate the processor registry (in the order given by the
list), skip a provider on ErrNoURLFound, propagate any other extraction error
wrapped as "url parsing", resolve the title via the titleParser map (a lookup
with a missing key yields Go's nil function, whose call panics), wrap a resolution
error as "title parsing", and return the bare ErrNoURLFound when every provider
was exhausted. -/
def extractMusicURL (procs : List (ExtractProvider × MusicURLExtractorFunc))
    (tp : List (ExtractProvider × TitleExtractorFunc)) (text : String) :
    Outcome ProcErr parsedMusicLink :=
  match procs with
  | [] => .fails (.raw .noURLFound)
  | (_, process) :: rest =>
    match process text with
    | (.error e, _) =>
      if e = .noURLFound then extractMusicURL rest tp text
      else .fails (.urlParsing e)
    | (.ok url, p) =>
      match tp.lookup p with
      | none => .panics
      | some titleFn =>
        match titleFn url with
        | .error e => .fails (.titleParsing e)
        | .ok title => .ok ⟨title, url, p⟩

/-- unicode.IsSpace restricted to the ASCII range (encoding/csv only meets ASCII
here; titles with exotic Unicode spaces are out of scope of the claims). -/
def goIsSpace (c : Char) : Bool :=
  c = ' ' || c = '\t' || c = '\n' || c = '\x0b' || c = '\x0c' || c = '\r'

/-- encoding/csv fieldNeedsQuotes for a non-space comma (the writer here uses
comma `;`): quote iff the field is non-empty and equals the special `\.`, or
contains the comma, a quote or CR/LF, or starts with a space. -/
def fieldNeedsQuotes (comma : Char) (field : String) : Bool :=
  if field = "" then false
  else if field = "\\." then true
  else if field.data.any (fun c => c = comma || c = '"' || c = '\r' || c = '\n') then true
  else match field.data with
    | [] => false
    | c :: _ => goIsSpace c

/-- Inside a quoted CSV field a quote is doubled (UseCRLF is false, so CR and LF
are copied through unchanged). -/
def escapeQuoted : List Char → List Char
  | [] => []
  | '"' :: r => '"' :: '"' :: escapeQuoted r
  | c :: r => c :: escapeQuoted r

def writeField (comma : Char) (field : String) : String :=
  if fieldNeedsQuotes comma field then "\"" ++ String.mk (escapeQuoted field.data) ++ "\""
  else field

/-- One csv.Writer.Write call: fields joined by the comma, newline-terminated
(UseCRLF is false). -/
def writeRecord (comma : Char) (fields : List String) : String :=
  String.intercalate (String.mk [comma]) (fields.map (writeField comma)) ++ "\n"

/-- The switch inside createCSV's loop: which record (if any) a link produces.
`ExtractProvider` is a Go string type, so a tag outside the three known constants
falls through the switch and produces no record. -/
def recordOf (pml : parsedMusicLink) : Option (List String) :=
  if pml.typ = SpotifyProvider then some [pml.Title, pml.URL, "", ""]
  else if pml.typ = YouTubeProvider then some [pml.Title, "", pml.URL, ""]
  else if pml.typ = YoutTubeMusicProvider then some [pml.Title, "", "", pml.URL]
  else none

/-- The loop of createCSV: one Write call per link with a known provider tag, in
list order. -/
def csvBody : List parsedMusicLink → List (List String)
  | [] => []
  | pml :: rest =>
    match recordOf pml with
    | some r => r :: csvBody rest
    | none => csvBody rest

def csvHeader : List String := ["Title", "Spotify URL", "YouTube URL", "YouTube Music URL"]

/-- The sequence of records written by createCSV. -/
def createCSVRecords (pmls : List parsedMusicLink) : List (List String) :=
  csvHeader :: csvBody pmls

def csvSerialize (records : List (List String)) : String :=
  String.join (records.map (writeRecord ';'))

/-- createCSV: serialize header plus body into the in-memory buffer and return
the bytes with buff.Len().  csv.Writer.Write/Flush cannot fail on a bytes.Buffer
with the valid comma `;`, so the function's error branches are dead and it is
total here. -/
def createCSV (pmls : List parsedMusicLink) : String × Nat :=
  let out := csvSerialize (createCSVRecords pmls)
  (out, out.utf8ByteSize)

/-- slack.Message (only the fields the processor reads). -/
structure SlackMessage where
  Text : String
  Username : String
deriving DecidableEq, Repr

/-- slack.UploadFileV2Parameters as filled in by SummarizeThread; `Content` holds
the bytes behind the Reader. -/
structure UploadFileV2Parameters where
  Content : String
  Filename : String
  Title : String
  InitialComment : String
  Channel : String
  ThreadTimestamp : String
  FileSize : Nat
deriving DecidableEq, Repr

/-- The per-message loop of SummarizeThread: collect the links of the messages
whose extraction succeeds, skipping failures; a panic aborts everything. -/
def collectLinks (procs : List (ExtractProvider × MusicURLExtractorFunc))
    (tp : List (ExtractProvider × TitleExtractorFunc)) :
    List SlackMessage → Outcome ProcErr (List parsedMusicLink)
  | [] => .ok []
  | msg :: rest =>
    match extractMusicURL procs tp msg.Text with
    | .panics => .panics
    | .fails _ => collectLinks procs tp rest
    | .ok m =>
      match collectLinks procs tp rest with
      | .panics => .panics
      | .fails e => .fails e
      | .ok pmls => .ok (m :: pmls)

/-- SummarizeThread of the domain message processor: collect links, build the
CSV, and return the upload parameters.  The createCSV error branch is dead (see
createCSV), so the only failure mode beyond a panic is none. -/
def SummarizeThread (procs : List (ExtractProvider × MusicURLExtractorFunc))
    (tp : List (ExtractProvider × TitleExtractorFunc))
    (msgs : List SlackMessage) (channelID threadTS : String) :
    Outcome ProcErr UploadFileV2Parameters :=
  match collectLinks procs tp msgs with
  | .panics => .panics
  | .fails e => .fails e
  | .ok pmls =>
    let res := createCSV pmls
    let fileName := channelID ++ "-" ++ threadTS ++ ".csv"
    .ok { Content := res.1
          Filename := fileName
          Title := fileName
          InitialComment := "Found " ++ toString pmls.length ++ " music URLs in this thread"
          Channel := channelID
          ThreadTimestamp := threadTS
          FileSize := res.2 }

/-- Specification-side view of the loop: the link of one message, if its
extraction succeeds. -/
def okLinkOf (procs : List (ExtractProvider × MusicURLExtractorFunc))
    (tp : List (ExtractProvider × TitleExtractorFunc)) (msg : SlackMessage) :
    Option parsedMusicLink :=
  match extractMusicURL procs tp msg.Text with
  | .ok m => some m
  | _ => none

def okLinks (procs : List (ExtractProvider × MusicURLExtractorFunc))
    (tp : List (ExtractProvider × TitleExtractorFunc)) (msgs : List SlackMessage) :
    List parsedMusicLink :=
  msgs.filterMap (okLinkOf procs tp)

/-- Whether extraction-plus-resolution fails (with a returned error, not a
panic) on a message. -/
def failsOn (procs : List (ExtractProvider × MusicURLExtractorFunc))
    (tp : List (ExtractProvider × TitleExtractorFunc)) (msg : SlackMessage) : Bool :=
  match extractMusicURL procs tp msg.Text with
  | .fails _ => true
  | _ => false

/-! ## pkg/musicextractors title extraction (SpotifyTitleExtractor) -/

/-- Go regexp `\s` (ASCII whitespace class of RE2). -/
def reWS (c : Char) : Bool := c = '\t' || c = '\n' || c = '\x0c' || c = '\r' || c = ' '

/-- Matcher for `<meta\s+property="PROP"\s+content="([^"]+)"` at the head of the
input, returning the capture group. -/
def metaCaptureAt (prop : String) (l : List Char) : Option (List Char) := do
  let r ← matchLit "<meta".data l
  let r ← matchClassPlus reWS r
  let r ← matchLit ("property=\"" ++ prop ++ "\"").data r
  let r ← matchClassPlus reWS r
  let r ← matchLit "content=\"".data r
  match r.span (fun c => c != '"') with
  | ([], _) => none
  | (cap, rest) =>
    match rest with
    | '"' :: _ => some cap
    | _ => none

/-- FindStringSubmatch: the capture of the leftmost match. -/
def firstCapture (m : List Char → Option (List Char)) : List Char → Option (List Char)
  | [] => none
  | c :: rest =>
    match m (c :: rest) with
    | some cap => some cap
    | none => firstCapture m rest

/-- strings.TrimSpace (ASCII whitespace; the claims never exercise Unicode
spaces). -/
def trimSpace (s : String) : String :=
  String.mk (((s.data.dropWhile goIsSpace).reverse.dropWhile goIsSpace).reverse)

/-- strings.SplitN(s, sep, 2): position of the first separator occurrence, as
the pieces before and after it; none when the separator does not occur. -/
def splitOnce (sep : List Char) : List Char → Option (List Char × List Char)
  | [] => none
  | c :: rest =>
    if sep.isPrefixOf (c :: rest) then some ([], (c :: rest).drop sep.length)
    else
      match splitOnce sep rest with
      | none => none
      | some (a, b) => some (c :: a, b)

/-- The HTTP response handed to SpotifyTitleExtractor (request construction and
transport failures are upstream of the claims and both map to ErrRequestFailed
in the source). -/
structure HTTPResponse where
  StatusCode : Nat
  Body : String

/-- SpotifyTitleExtractor with the fetched response as input: non-200 status is
ErrRequestFailed; a body without og:title is ErrNoTitleFound; with og:title and
og:description, the description is split at the first " · " and its first part
is joined to the title by " - ", falling back to the whole description when the
separator is absent; without og:description the bare title is returned. -/
def SpotifyTitleExtractor (resp : HTTPResponse) : Except ExtractError String :=
  if resp.StatusCode ≠ 200 then .error .requestFailed
  else
    match firstCapture (metaCaptureAt "og:title") resp.Body.data with
    | none => .error .noTitleFound
    | some tCap =>
      let songTitle := trimSpace (String.mk tCap)
      match firstCapture (metaCaptureAt "og:description") resp.Body.data with
      | none => .ok songTitle
      | some dCap =>
        let description := trimSpace (String.mk dCap)
        match splitOnce " · ".data description.data with
        | none => .ok (description ++ " - " ++ songTitle)
        | some (a, _) => .ok (String.mk a ++ " - " ++ songTitle)

/-! ## internal/services/bot.go -/

/-- slackevents.CallbackEvent. -/
def CallbackEvent : String := "event_callback"

/-- The recognized command keyword. -/
def CommandSummarize : String := "summarize"

/-- Whether sub occurs as a contiguous run at some position of the list. -/
def hasInfixAt (sub : List Char) : List Char → Bool
  | [] => sub.isEmpty
  | c :: rest => sub.isPrefixOf (c :: rest) || hasInfixAt sub rest

/-- strings.Contains. -/
def containsSubstr (s sub : String) : Bool := hasInfixAt sub.data s.data

/-- slackevents.AppMentionEvent (the fields handleMentions reads). -/
structure AppMentionEvent where
  User : String
  Channel : String
  Text : String
  ThreadTimeStamp : String
deriving DecidableEq, Repr

/-- The inner event of a callback: an app mention, or anything else (dropped
with a log line). -/
inductive InnerEventData where
  | appMention (ev : AppMentionEvent)
  | other (eventType : String)
deriving DecidableEq, Repr

/-- slackevents.EventsAPIEvent. -/
structure EventsAPIEvent where
  type : String
  innerEvent : InnerEventData
deriving DecidableEq, Repr

/-- socketmode.Event of kind EventTypeEventsAPI: `data = none` models a payload
whose type assertion to slackevents.EventsAPIEvent fails; `request` identifies
`*evt.Request`. -/
structure SocketmodeEvent where
  data : Option EventsAPIEvent
  request : Nat
deriving DecidableEq, Repr

/-- The outbound Slack calls the bot makes, in order. -/
inductive BotAction where
  | ack (request : Nat)
  | postEphemeral (channelID userID text : String)
  | getConversationReplies (channelID threadTS : String) (limit : Nat)
  | summarizeThread (msgs : List SlackMessage) (channelID threadTS : String)
  | uploadFileV2 (params : UploadFileV2Parameters)
deriving DecidableEq, Repr

abbrev SlackErr := String

/-- Errors returned by the bot handlers; `wrap` models
telemetry.WrapErrorWithTrace / fmt.Errorf("%s: %w", context, err). -/
inductive BotError where
  | slackCall (e : SlackErr)
  | invalidCommandType
  | procFailure (e : ProcErr)
  | wrap (context : String) (e : BotError)
deriving DecidableEq, Repr

/-- Results of the Slack API collaborator for the (at most one) call of each
kind made while handling a single event. -/
structure SlackAPIOracle where
  postEphemeralErr : Option SlackErr
  conversationReplies : Except SlackErr (List SlackMessage)
  uploadErr : Option SlackErr

/-- The domain dependency of the bot: the processor registry (with its map
iteration order) and the title-parser registry. -/
structure BotCfg where
  procs : List (ExtractProvider × MusicURLExtractorFunc)
  tp : List (ExtractProvider × TitleExtractorFunc)

/-- processThread: fetch the full thread (limit 1000), summarize it, upload the
artifact; each failure is wrapped with its operation name. -/
def processThread (cfg : BotCfg) (oracle : SlackAPIOracle) (channelID threadTS : String) :
    List BotAction × Outcome BotError Unit :=
  let a1 := BotAction.getConversationReplies channelID threadTS 1000
  match oracle.conversationReplies with
  | .error e => ([a1], .fails (.wrap "get slack thread replies" (.slackCall e)))
  | .ok msgs =>
    let a2 := BotAction.summarizeThread msgs channelID threadTS
    match SummarizeThread cfg.procs cfg.tp msgs channelID threadTS with
    | .panics => ([a1, a2], .panics)
    | .fails e => ([a1, a2], .fails (.wrap "summarizing thread" (.procFailure e)))
    | .ok reply =>
      let a3 := BotAction.uploadFileV2 reply
      match oracle.uploadErr with
      | some e => ([a1, a2, a3], .fails (.wrap "uploading file to reply" (.slackCall e)))
      | none => ([a1, a2, a3], .ok ())

/-- handleMentions: an empty thread timestamp short-circuits to one ephemeral
notice; otherwise the text is scanned for the command keyword, and a miss is the
invalid-command error. -/
def handleMentions (cfg : BotCfg) (oracle : SlackAPIOracle) (event : AppMentionEvent) :
    List BotAction × Outcome BotError Unit :=
  if event.ThreadTimeStamp = "" then
    let a := BotAction.postEphemeral event.Channel event.User
      "Bot is only usable in threads to summarize them"
    match oracle.postEphemeralErr with
    | some e => ([a], .fails (.wrap "unable to post ephemeral notification" (.slackCall e)))
    | none => ([a], .ok ())
  else if containsSubstr event.Text CommandSummarize then
    let res := processThread cfg oracle event.Channel event.ThreadTimeStamp
    (res.1,
      match res.2 with
      | .fails e => .fails (.wrap "processing thread" e)
      | r => r)
  else
    ([], .fails (.wrap "parsing command" .invalidCommandType))

/-- handleEventsAPI: a failed type assertion is logged and dropped before any
acknowledgment; otherwise the event is acknowledged first, non-callback events
are dropped, and an inner mention event is handled (its error only logged). -/
def handleEventsAPI (cfg : BotCfg) (oracle : SlackAPIOracle) (evt : SocketmodeEvent) :
    List BotAction × Outcome BotError Unit :=
  match evt.data with
  | none => ([], .ok ())
  | some api =>
    let ackA := BotAction.ack evt.request
    if api.type ≠ CallbackEvent then ([ackA], .ok ())
    else
      match api.innerEvent with
      | .appMention ev =>
        let res := handleMentions cfg oracle ev
        (ackA :: res.1,
          match res.2 with
          | .panics => .panics
          | _ => .ok ())
      | .other _ => ([ackA], .ok ())

def isAck : BotAction → Bool
  | .ack _ => true
  | _ => false

def isSummarizeCall : BotAction → Bool
  | .summarizeThread _ _ _ => true
  | _ => false

def isRepliesFetch : BotAction → Bool
  | .getConversationReplies _ _ _ => true
  | _ => false

/-- A resolver registry of stubbed collaborators (title resolution is a network
call; the bot receives it as a dependency), used to exercise the pipeline on
concrete inputs. -/
def stubTitleParsers : List (ExtractProvider × TitleExtractorFunc) :=
  [(SpotifyProvider, fun url => .ok ("S-" ++ url)),
   (YouTubeProvider, fun url => .ok ("Y-" ++ url)),
   (YoutTubeMusicProvider, fun url => .ok ("M-" ++ url))]

/-- Identifier shape of the single-item ids appearing in sibling resource URLs:
word characters and hyphens (no character of this class can continue a URL
scheme, which is what the discrimination proofs use). -/
def plainId (l : List Char) : Bool := l.all (fun c => isWordChar c || c = '-')

/-- How many of the three registered providers have at least one pattern
occurrence in the text. -/
def activeCount (text : String) : Nat :=
  (if occurrences spotifyMatchAt text = [] then 0 else 1)
  + (if occurrences youtubeMatchAt text = [] then 0 else 1)
  + (if occurrences ytMusicMatchAt text = [] then 0 else 1)

/-! # Theorems -/

/-! ## Helper lemmas on regexURLExtractor -/

theorem regexURLExtractor_nil {text : String} {m : List Char → Option Nat}
    (h : findAll m text.data = []) :
    regexURLExtractor text m = .error .noURLFound := by
  unfold regexURLExtractor
  rw [h]

theorem regexURLExtractor_single {text : String} {m : List Char → Option Nat}
    {u : List Char} (h : findAll m text.data = [u]) :
    regexURLExtractor text m = .ok (String.mk u) := by
  unfold regexURLExtractor
  rw [h]

theorem regexURLExtractor_multi {text : String} {m : List Char → Option Nat}
    (h : 2 ≤ (findAll m text.data).length) :
    regexURLExtractor text m = .error .multipleResult := by
  unfold regexURLExtractor
  rcases hf : findAll m text.data with _ | ⟨a, _ | ⟨b, t⟩⟩
  · rw [hf] at h; simp at h
  · rw [hf] at h; simp at h
  · rfl

/-- C1: for each of the three provider extractors, a text with exactly one
pattern occurrence yields that occurrence with no error, zero occurrences yield
ErrNoURLFound, and two or more occurrences yield ErrMultipleResult — never a
partial or first match. -/
theorem extractor_occurrence_trichotomy (text : String) :
    ((occurrences spotifyMatchAt text = [] →
        SpotifyURLExtractor text = (.error .noURLFound, SpotifyProvider))
      ∧ (∀ u, occurrences spotifyMatchAt text = [u] →
        SpotifyURLExtractor text = (.ok (String.mk u), SpotifyProvider))
      ∧ (2 ≤ (occurrences spotifyMatchAt text).length →
        SpotifyURLExtractor text = (.error .multipleResult, SpotifyProvider)))
  ∧ ((occurrences youtubeMatchAt text = [] →
        YouTubeURLExtractor text = (.error .noURLFound, YouTubeProvider))
      ∧ (∀ u, occurrences youtubeMatchAt text = [u] →
        YouTubeURLExtractor text = (.ok (String.mk u), YouTubeProvider))
      ∧ (2 ≤ (occurrences youtubeMatchAt text).length →
        YouTubeURLExtractor text = (.error .multipleResult, YouTubeProvider)))
  ∧ ((occurrences ytMusicMatchAt text = [] →
        YouTubeMusicURLExtractor text = (.error .noURLFound, YoutTubeMusicProvider))
      ∧ (∀ u, occurrences ytMusicMatchAt text = [u] →
        YouTubeMusicURLExtractor text = (.ok (String.mk u), YoutTubeMusicProvider))
      ∧ (2 ≤ (occurrences ytMusicMatchAt text).length →
        YouTubeMusicURLExtractor text = (.error .multipleResult, YoutTubeMusicProvider))) := by
  refine ⟨⟨fun h => ?_, fun u h => ?_, fun h => ?_⟩,
          ⟨fun h => ?_, fun u h => ?_, fun h => ?_⟩,
          ⟨fun h => ?_, fun u h => ?_, fun h => ?_⟩⟩
  · unfold SpotifyURLExtractor; rw [regexURLExtractor_nil h]
  · unfold SpotifyURLExtractor; rw [regexURLExtractor_single h]
  · unfold SpotifyURLExtractor; rw [regexURLExtractor_multi h]
  · unfold YouTubeURLExtractor; rw [regexURLExtractor_nil h]
  · unfold YouTubeURLExtractor; rw [regexURLExtractor_single h]
  · unfold YouTubeURLExtractor; rw [regexURLExtractor_multi h]
  · unfold YouTubeMusicURLExtractor; rw [regexURLExtractor_nil h]
  · unfold YouTubeMusicURLExtractor; rw [regexURLExtractor_single h]
  · unfold YouTubeMusicURLExtractor; rw [regexURLExtractor_multi h]

/-- Concrete instances of C1: one, zero and several occurrences for each of the
three providers. -/
theorem extractor_occurrence_trichotomy_witness :
    SpotifyURLExtractor "just plain text" = (.error .noURLFound, SpotifyProvider)
  ∧ SpotifyURLExtractor "x https://open.spotify.com/track/abc?si=1 y"
      = (.ok "https://open.spotify.com/track/abc?si=1", SpotifyProvider)
  ∧ SpotifyURLExtractor "https://open.spotify.com/track/a https://open.spotify.com/track/b"
      = (.error .multipleResult, SpotifyProvider)
  ∧ YouTubeURLExtractor "no url" = (.error .noURLFound, YouTubeProvider)
  ∧ YouTubeURLExtractor "see https://youtu.be/xyz789 now"
      = (.ok "https://youtu.be/xyz789", YouTubeProvider)
  ∧ YouTubeURLExtractor "https://youtube.com/watch?v=a https://youtu.be/b"
      = (.error .multipleResult, YouTubeProvider)
  ∧ YouTubeMusicURLExtractor "nothing" = (.error .noURLFound, YoutTubeMusicProvider)
  ∧ YouTubeMusicURLExtractor "hear https://music.youtube.com/watch?v=q&list=r ok"
      = (.ok "https://music.youtube.com/watch?v=q&list=r", YoutTubeMusicProvider)
  ∧ YouTubeMusicURLExtractor "https://music.youtube.com/watch?v=a https://music.youtube.com/watch?v=b"
      = (.error .multipleResult, YoutTubeMusicProvider) :=
  ⟨(extractor_occurrence_trichotomy _).1.1 (by decide),
   (extractor_occurrence_trichotomy _).1.2.1 _ (by decide),
   (extractor_occurrence_trichotomy _).1.2.2 (by decide),
   (extractor_occurrence_trichotomy _).2.1.1 (by decide),
   (extractor_occurrence_trichotomy _).2.1.2.1 _ (by decide),
   (extractor_occurrence_trichotomy _).2.1.2.2 (by decide),
   (extractor_occurrence_trichotomy _).2.2.1 (by decide),
   (extractor_occurrence_trichotomy _).2.2.2.1 _ (by decide),
   (extractor_occurrence_trichotomy _).2.2.2.2 (by decide)⟩

/-! ## Helper lemmas for sibling-path discrimination (C5) -/

theorem matchLit_suffix {lit : List Char} :
    ∀ {l r : List Char}, matchLit lit l = some r → r.IsSuffix l := by
  induction lit with
  | nil =>
    intro l r h
    simp only [matchLit, Option.some.injEq] at h
    exact h ▸ List.suffix_refl l
  | cons c cs ih =>
    intro l r h
    cases l with
    | nil => simp [matchLit] at h
    | cons d ds =>
      by_cases hc : c = d
      · rw [matchLit, if_pos hc] at h
        exact (ih h).trans (List.suffix_cons d ds)
      · rw [matchLit, if_neg hc] at h
        exact absurd h (by simp)

theorem plainId_suffix {l r : List Char} (h : r.IsSuffix l) (hp : plainId l = true) :
    plainId r = true := by
  simp only [plainId, List.all_eq_true] at *
  exact fun c hc => hp c (h.subset hc)

theorem matchLit_colon_none {xs l : List Char} (hp : plainId l = true) :
    matchLit (':' :: xs) l = none := by
  cases l with
  | nil => rfl
  | cons d ds =>
    have hd : (isWordChar d || d = '-') = true := by
      simp only [plainId, List.all_eq_true] at hp
      exact hp d (List.mem_cons_self d ds)
    have hne : ':' ≠ d := by
      intro e
      rw [← e] at hd
      exact absurd hd (by decide)
    simp [matchLit, hne]

theorem matchLit_head_ne {x : Char} {xs : List Char} {c : Char} {rest : List Char}
    (h : x ≠ c) : matchLit (x :: xs) (c :: rest) = none := by
  simp [matchLit, h]

theorem schemeAt_plain {l : List Char} (hp : plainId l = true) : schemeAt l = none := by
  cases h1 : matchLit "http".data l with
  | none => simp [schemeAt, h1]
  | some r =>
    have hr0 : plainId r = true := plainId_suffix (matchLit_suffix h1) hp
    have hr : plainId (matchOpt "s".data r) = true := by
      unfold matchOpt
      cases h2 : matchLit "s".data r with
      | none => simpa using hr0
      | some r' => simpa using plainId_suffix (matchLit_suffix h2) hr0
    have h3 : matchLit "://".data (matchOpt "s".data r) = none := matchLit_colon_none hr
    simp [schemeAt, h1, h3]

theorem schemeAt_not_h {c : Char} {rest : List Char} (h : c ≠ 'h') :
    schemeAt (c :: rest) = none := by
  have h4 : matchLit "http".data (c :: rest) = none := matchLit_head_ne h.symm
  simp [schemeAt, h4]

theorem spotifyMatchAt_plain {l : List Char} (hp : plainId l = true) :
    spotifyMatchAt l = none := by
  simp [spotifyMatchAt, schemeAt_plain hp]

theorem spotifyMatchAt_not_h {c : Char} {rest : List Char} (h : c ≠ 'h') :
    spotifyMatchAt (c :: rest) = none := by
  simp [spotifyMatchAt, schemeAt_not_h h]

theorem youtubeMatchAt_plain {l : List Char} (hp : plainId l = true) :
    youtubeMatchAt l = none := by
  simp [youtubeMatchAt, schemeAt_plain hp]

theorem youtubeMatchAt_not_h {c : Char} {rest : List Char} (h : c ≠ 'h') :
    youtubeMatchAt (c :: rest) = none := by
  simp [youtubeMatchAt, schemeAt_not_h h]

theorem ytMusicMatchAt_plain {l : List Char} (hp : plainId l = true) :
    ytMusicMatchAt l = none := by
  simp [ytMusicMatchAt, schemeAt_plain hp]

theorem ytMusicMatchAt_not_h {c : Char} {rest : List Char} (h : c ≠ 'h') :
    ytMusicMatchAt (c :: rest) = none := by
  simp [ytMusicMatchAt, schemeAt_not_h h]

theorem findAllAux_eq_nil {m : List Char → Option Nat} (fuel : Nat) :
    ∀ l : List Char, (∀ t, t.IsSuffix l → t ≠ [] → m t = none) →
      findAllAux m fuel l = [] := by
  induction fuel with
  | zero => intro l _; rfl
  | succ fuel ih =>
    intro l h
    cases l with
    | nil => rfl
    | cons c rest =>
      have hc : m (c :: rest) = none := h _ (List.suffix_refl _) (by simp)
      have hrest := ih rest (fun t ht hne => h t (ht.trans (List.suffix_cons c rest)) hne)
      simp [findAllAux, hc, hrest]

theorem findAll_eq_nil {m : List Char → Option Nat} {l : List Char}
    (h : ∀ t, t.IsSuffix l → t ≠ [] → m t = none) : findAll m l = [] :=
  findAllAux_eq_nil _ _ h

theorem suffix_append_cases {t a b : List Char} (h : t.IsSuffix (a ++ b)) :
    t.IsSuffix b ∨ ∃ x, x.IsSuffix a ∧ x ≠ [] ∧ t = x ++ b := by
  induction a with
  | nil => left; simpa using h
  | cons c a ih =>
    rcases List.suffix_cons_iff.mp h with h1 | h2
    · right; exact ⟨c :: a, List.suffix_refl _, by simp, h1⟩
    · rcases ih h2 with h3 | ⟨x, hx, hne, rfl⟩
      · left; exact h3
      · right; exact ⟨x, hx.trans (List.suffix_cons c a), hne, rfl⟩

/-- Every occurrence scan over "head chunk plus plain identifier" is empty when
the matcher fails on the concrete head chunk however it continues, fails on any
position not starting with 'h', and fails on plain-identifier suffixes. -/
theorem findAll_append_nil {m : List Char → Option Nat} (pre : List Char)
    (hplain : ∀ {l : List Char}, plainId l = true → m l = none)
    (hnoth : ∀ {c : Char} {rest : List Char}, c ≠ 'h' → m (c :: rest) = none)
    (h0 : ∀ id : List Char, m (pre ++ id) = none)
    (hpre : ∀ x ∈ pre.tails, x = pre ∨ x.head? ≠ some 'h')
    {id : List Char} (hid : plainId id = true) :
    findAll m (pre ++ id) = [] := by
  apply findAll_eq_nil
  intro t hsuf hne
  rcases suffix_append_cases hsuf with hsub | ⟨x, hx, hxne, rfl⟩
  · exact hplain (plainId_suffix hsub hid)
  · rcases hpre x ((List.mem_tails _ _).mpr hx) with rfl | hh
    · exact h0 id
    · cases x with
      | nil => exact absurd rfl hxne
      | cons c r =>
        apply hnoth
        intro e
        subst e
        exact hh rfl

theorem occ_spotify_playlist {id : List Char} (hid : plainId id = true) :
    findAll spotifyMatchAt ("https://open.spotify.com/playlist/".data ++ id) = [] :=
  findAll_append_nil ("https://open.spotify.com/playlist/".data)
    (fun h => spotifyMatchAt_plain h) (fun h => spotifyMatchAt_not_h h)
    (fun _ => rfl) (by decide) hid

theorem occ_spotify_album {id : List Char} (hid : plainId id = true) :
    findAll spotifyMatchAt ("https://open.spotify.com/album/".data ++ id) = [] :=
  findAll_append_nil ("https://open.spotify.com/album/".data)
    (fun h => spotifyMatchAt_plain h) (fun h => spotifyMatchAt_not_h h)
    (fun _ => rfl) (by decide) hid

theorem occ_spotify_artist {id : List Char} (hid : plainId id = true) :
    findAll spotifyMatchAt ("https://open.spotify.com/artist/".data ++ id) = [] :=
  findAll_append_nil ("https://open.spotify.com/artist/".data)
    (fun h => spotifyMatchAt_plain h) (fun h => spotifyMatchAt_not_h h)
    (fun _ => rfl) (by decide) hid

theorem occ_youtube_playlist {id : List Char} (hid : plainId id = true) :
    findAll youtubeMatchAt ("https://www.youtube.com/playlist?list=".data ++ id) = [] :=
  findAll_append_nil ("https://www.youtube.com/playlist?list=".data)
    (fun h => youtubeMatchAt_plain h) (fun h => youtubeMatchAt_not_h h)
    (fun _ => rfl) (by decide) hid

theorem occ_ytmusic_playlist {id : List Char} (hid : plainId id = true) :
    findAll ytMusicMatchAt ("https://music.youtube.com/playlist?list=".data ++ id) = [] :=
  findAll_append_nil ("https://music.youtube.com/playlist?list=".data)
    (fun h => ytMusicMatchAt_plain h) (fun h => ytMusicMatchAt_not_h h)
    (fun _ => rfl) (by decide) hid

/-- C5: a text containing a provider's host but no occurrence of its single-item
pattern yields ErrNoURLFound for that provider; in particular every Spotify
playlist/album/artist URL, YouTube playlist URL and YouTube Music playlist URL
(for any plain identifier) has zero occurrences of the single-item pattern and
is therefore not matched. -/
theorem sibling_resource_paths_not_found :
    ((∀ text : String, containsSubstr text "spotify.com" = true →
        occurrences spotifyMatchAt text = [] →
        SpotifyURLExtractor text = (.error .noURLFound, SpotifyProvider))
      ∧ (∀ text : String, containsSubstr text "youtube.com" = true →
        occurrences youtubeMatchAt text = [] →
        YouTubeURLExtractor text = (.error .noURLFound, YouTubeProvider))
      ∧ (∀ text : String, containsSubstr text "music.youtube.com" = true →
        occurrences ytMusicMatchAt text = [] →
        YouTubeMusicURLExtractor text = (.error .noURLFound, YoutTubeMusicProvider)))
  ∧ ((∀ id, plainId id = true →
        SpotifyURLExtractor (String.mk ("https://open.spotify.com/playlist/".data ++ id))
          = (.error .noURLFound, SpotifyProvider))
      ∧ (∀ id, plainId id = true →
        SpotifyURLExtractor (String.mk ("https://open.spotify.com/album/".data ++ id))
          = (.error .noURLFound, SpotifyProvider))
      ∧ (∀ id, plainId id = true →
        SpotifyURLExtractor (String.mk ("https://open.spotify.com/artist/".data ++ id))
          = (.error .noURLFound, SpotifyProvider))
      ∧ (∀ id, plainId id = true →
        YouTubeURLExtractor (String.mk ("https://www.youtube.com/playlist?list=".data ++ id))
          = (.error .noURLFound, YouTubeProvider))
      ∧ (∀ id, plainId id = true →
        YouTubeMusicURLExtractor
            (String.mk ("https://music.youtube.com/playlist?list=".data ++ id))
          = (.error .noURLFound, YoutTubeMusicProvider))) := by
  refine ⟨⟨fun text _ h => ?_, fun text _ h => ?_, fun text _ h => ?_⟩,
          fun id hid => ?_, fun id hid => ?_, fun id hid => ?_,
          fun id hid => ?_, fun id hid => ?_⟩
  · unfold SpotifyURLExtractor; rw [regexURLExtractor_nil h]
  · unfold YouTubeURLExtractor; rw [regexURLExtractor_nil h]
  · unfold YouTubeMusicURLExtractor; rw [regexURLExtractor_nil h]
  · unfold SpotifyURLExtractor; rw [regexURLExtractor_nil (occ_spotify_playlist hid)]
  · unfold SpotifyURLExtractor; rw [regexURLExtractor_nil (occ_spotify_album hid)]
  · unfold SpotifyURLExtractor; rw [regexURLExtractor_nil (occ_spotify_artist hid)]
  · unfold YouTubeURLExtractor; rw [regexURLExtractor_nil (occ_youtube_playlist hid)]
  · unfold YouTubeMusicURLExtractor; rw [regexURLExtractor_nil (occ_ytmusic_playlist hid)]

/-- Concrete instances of C5 at real sibling links. -/
theorem sibling_resource_paths_not_found_witness :
    SpotifyURLExtractor "My playlist https://open.spotify.com/playlist/37i9dQZF1DXcBWIGoYBM5M"
      = (.error .noURLFound, SpotifyProvider)
  ∧ YouTubeURLExtractor
      "Check https://www.youtube.com/playlist?list=PLrAXtmErZgOeiKm4sgNOknGvNjby9efdf"
      = (.error .noURLFound, YouTubeProvider)
  ∧ YouTubeMusicURLExtractor "https://music.youtube.com/playlist?list=RDCLAK5uy_km"
      = (.error .noURLFound, YoutTubeMusicProvider)
  ∧ SpotifyURLExtractor (String.mk ("https://open.spotify.com/playlist/".data ++ "37i9dQZF1DXc".data))
      = (.error .noURLFound, SpotifyProvider)
  ∧ SpotifyURLExtractor (String.mk ("https://open.spotify.com/album/".data ++ "4LH4d3cOWNNs".data))
      = (.error .noURLFound, SpotifyProvider)
  ∧ SpotifyURLExtractor (String.mk ("https://open.spotify.com/artist/".data ++ "0TnOYISbd1XY".data))
      = (.error .noURLFound, SpotifyProvider)
  ∧ YouTubeURLExtractor
      (String.mk ("https://www.youtube.com/playlist?list=".data ++ "PLrAXtmErZgOe".data))
      = (.error .noURLFound, YouTubeProvider)
  ∧ YouTubeMusicURLExtractor
      (String.mk ("https://music.youtube.com/playlist?list=".data ++ "RDCLAK5uy_km".data))
      = (.error .noURLFound, YoutTubeMusicProvider) :=
  ⟨sibling_resource_paths_not_found.1.1 _ (by decide) (by decide),
   sibling_resource_paths_not_found.1.2.1 _ (by decide) (by decide),
   sibling_resource_paths_not_found.1.2.2 _ (by decide) (by decide),
   sibling_resource_paths_not_found.2.1 _ (by decide),
   sibling_resource_paths_not_found.2.2.1 _ (by decide),
   sibling_resource_paths_not_found.2.2.2.1 _ (by decide),
   sibling_resource_paths_not_found.2.2.2.2.1 _ (by decide),
   sibling_resource_paths_not_found.2.2.2.2.2 _ (by decide)⟩

/-! ## Helper lemmas on extractMusicURL (C8, C9) -/

theorem regexURLExtractor_ne_noURL {text : String} {m : List Char → Option Nat}
    (h : findAll m text.data ≠ []) :
    regexURLExtractor text m ≠ .error .noURLFound := by
  unfold regexURLExtractor
  rcases hf : findAll m text.data with _ | ⟨a, _ | ⟨b, t⟩⟩
  · exact absurd hf h
  · simp
  · simp

theorem extractMusicURL_cons_skip {xk : ExtractProvider} {xf : MusicURLExtractorFunc}
    {rest : List (ExtractProvider × MusicURLExtractorFunc)}
    {tp : List (ExtractProvider × TitleExtractorFunc)} {text : String}
    (h : (xf text).1 = .error .noURLFound) :
    extractMusicURL ((xk, xf) :: rest) tp text = extractMusicURL rest tp text := by
  rcases hxt : xf text with ⟨r, p⟩
  rw [hxt] at h
  simp only at h
  subst h
  simp [extractMusicURL, hxt]

theorem extractMusicURL_cons_err {xk : ExtractProvider} {xf : MusicURLExtractorFunc}
    {rest : List (ExtractProvider × MusicURLExtractorFunc)}
    {tp : List (ExtractProvider × TitleExtractorFunc)} {text : String}
    {e : ExtractError} {p : ExtractProvider}
    (hft : xf text = (.error e, p)) (he : e ≠ .noURLFound) :
    extractMusicURL ((xk, xf) :: rest) tp text = .fails (.urlParsing e) := by
  simp [extractMusicURL, hft, he]

theorem extractMusicURL_cons_ok {xk : ExtractProvider} {xf : MusicURLExtractorFunc}
    {rest : List (ExtractProvider × MusicURLExtractorFunc)}
    {tp : List (ExtractProvider × TitleExtractorFunc)} {text : String}
    {url : String} {p : ExtractProvider}
    (hft : xf text = (.ok url, p)) :
    extractMusicURL ((xk, xf) :: rest) tp text
      = (match tp.lookup p with
         | none => .panics
         | some titleFn =>
           match titleFn url with
           | .error e => .fails (.titleParsing e)
           | .ok title => .ok ⟨title, url, p⟩) := by
  simp [extractMusicURL, hft]

theorem extractMusicURL_all_skip {procs : List (ExtractProvider × MusicURLExtractorFunc)}
    {tp : List (ExtractProvider × TitleExtractorFunc)} {text : String}
    (h : ∀ x ∈ procs, ((x.2 : MusicURLExtractorFunc) text).1 = .error .noURLFound) :
    extractMusicURL procs tp text = .fails (.raw .noURLFound) := by
  induction procs with
  | nil => rfl
  | cons x rest ih =>
    obtain ⟨xk, xf⟩ := x
    have hf : (xf text).1 = .error .noURLFound := h (xk, xf) (List.mem_cons_self _ _)
    rw [extractMusicURL_cons_skip hf]
    exact ih (fun y hy => h y (List.mem_cons_of_mem _ hy))

theorem extractMusicURL_single_active {procs : List (ExtractProvider × MusicURLExtractorFunc)}
    {tp : List (ExtractProvider × TitleExtractorFunc)} {text : String}
    {k : ExtractProvider} {f : MusicURLExtractorFunc}
    (hmem : (k, f) ∈ procs)
    (hothers : ∀ x ∈ procs, x ≠ (k, f) →
      ((x.2 : MusicURLExtractorFunc) text).1 = .error .noURLFound)
    (hactive : (f text).1 ≠ .error .noURLFound) :
    extractMusicURL procs tp text = extractMusicURL [(k, f)] tp text := by
  induction procs with
  | nil => cases hmem
  | cons x rest ih =>
    obtain ⟨xk, xf⟩ := x
    by_cases hx : (xk, xf) = ((k, f) : ExtractProvider × MusicURLExtractorFunc)
    · injection hx with h1 h2
      subst h1
      subst h2
      rcases hft : xf text with ⟨r, p⟩
      cases r with
      | error e =>
        have he : e ≠ .noURLFound := by
          intro hee
          apply hactive
          rw [hft, hee]
        rw [extractMusicURL_cons_err hft he, extractMusicURL_cons_err hft he]
      | ok url =>
        rw [extractMusicURL_cons_ok hft, extractMusicURL_cons_ok hft]
    · have hmem' : (k, f) ∈ rest := by
        rcases List.mem_cons.mp hmem with h | h
        · exact absurd h.symm hx
        · exact h
      have hskip : (xf text).1 = .error .noURLFound :=
        hothers (xk, xf) (List.mem_cons_self _ _) hx
      rw [extractMusicURL_cons_skip hskip]
      exact ih hmem' (fun y hy hyne => hothers y (List.mem_cons_of_mem _ hy) hyne)

/-- C8 counterexample: the claim that extractMusicURL is independent of the
provider iteration order fails on a text containing one Spotify track URL and
one YouTube URL — the two orders return two different parsed links. -/
theorem extractMusicURL_order_dependent_cex :
    extractMusicURL urlProcessors stubTitleParsers
        "a https://open.spotify.com/track/aaa b https://youtu.be/bbb c"
      ≠ extractMusicURL urlProcessors.reverse stubTitleParsers
        "a https://open.spotify.com/track/aaa b https://youtu.be/bbb c" := by decide

/-- C8 amended: extractMusicURL is independent of the registry iteration order
whenever at most one registered provider's pattern occurs in the text (the
mutual-exclusion situation the spec assumes); with URLs of two different
providers present the result is order-dependent. -/
theorem extractMusicURL_order_independent_single_provider
    (procsA procsB : List (ExtractProvider × MusicURLExtractorFunc))
    (tp : List (ExtractProvider × TitleExtractorFunc)) (text : String)
    (hA : procsA.Perm urlProcessors) (hB : procsB.Perm urlProcessors)
    (h1 : activeCount text ≤ 1) :
    extractMusicURL procsA tp text = extractMusicURL procsB tp text := by
  by_cases hsp : findAll spotifyMatchAt text.data = [] <;>
    by_cases hyt : findAll youtubeMatchAt text.data = [] <;>
      by_cases hym : findAll ytMusicMatchAt text.data = []
  · -- no provider has an occurrence: every extractor is skipped
    have hall : ∀ procs : List (ExtractProvider × MusicURLExtractorFunc),
        procs.Perm urlProcessors → ∀ x ∈ procs,
        ((x.2 : MusicURLExtractorFunc) text).1 = .error .noURLFound := by
      intro procs hperm x hx
      have hx' := hperm.subset hx
      simp only [urlProcessors, List.mem_cons, List.not_mem_nil, or_false] at hx'
      rcases hx' with rfl | rfl | rfl
      · exact regexURLExtractor_nil hsp
      · exact regexURLExtractor_nil hyt
      · exact regexURLExtractor_nil hym
    rw [extractMusicURL_all_skip (hall _ hA), extractMusicURL_all_skip (hall _ hB)]
  · -- only youtube-music has occurrences
    have hoth : ∀ procs : List (ExtractProvider × MusicURLExtractorFunc),
        procs.Perm urlProcessors → ∀ x ∈ procs,
        x ≠ (YoutTubeMusicProvider, YouTubeMusicURLExtractor) →
        ((x.2 : MusicURLExtractorFunc) text).1 = .error .noURLFound := by
      intro procs hperm x hx hne
      have hx' := hperm.subset hx
      simp only [urlProcessors, List.mem_cons, List.not_mem_nil, or_false] at hx'
      rcases hx' with rfl | rfl | rfl
      · exact regexURLExtractor_nil hsp
      · exact regexURLExtractor_nil hyt
      · exact absurd rfl hne
    rw [extractMusicURL_single_active ((hA.mem_iff).mpr (by simp [urlProcessors]))
          (hoth _ hA) (regexURLExtractor_ne_noURL hym),
        extractMusicURL_single_active ((hB.mem_iff).mpr (by simp [urlProcessors]))
          (hoth _ hB) (regexURLExtractor_ne_noURL hym)]
  · -- only youtube has occurrences
    have hoth : ∀ procs : List (ExtractProvider × MusicURLExtractorFunc),
        procs.Perm urlProcessors → ∀ x ∈ procs,
        x ≠ (YouTubeProvider, YouTubeURLExtractor) →
        ((x.2 : MusicURLExtractorFunc) text).1 = .error .noURLFound := by
      intro procs hperm x hx hne
      have hx' := hperm.subset hx
      simp only [urlProcessors, List.mem_cons, List.not_mem_nil, or_false] at hx'
      rcases hx' with rfl | rfl | rfl
      · exact regexURLExtractor_nil hsp
      · exact absurd rfl hne
      · exact regexURLExtractor_nil hym
    rw [extractMusicURL_single_active ((hA.mem_iff).mpr (by simp [urlProcessors]))
          (hoth _ hA) (regexURLExtractor_ne_noURL hyt),
        extractMusicURL_single_active ((hB.mem_iff).mpr (by simp [urlProcessors]))
          (hoth _ hB) (regexURLExtractor_ne_noURL hyt)]
  · exact absurd h1 (by simp [activeCount, hsp, hyt, hym])
  · -- only spotify has occurrences
    have hoth : ∀ procs : List (ExtractProvider × MusicURLExtractorFunc),
        procs.Perm urlProcessors → ∀ x ∈ procs,
        x ≠ (SpotifyProvider, SpotifyURLExtractor) →
        ((x.2 : MusicURLExtractorFunc) text).1 = .error .noURLFound := by
      intro procs hperm x hx hne
      have hx' := hperm.subset hx
      simp only [urlProcessors, List.mem_cons, List.not_mem_nil, or_false] at hx'
      rcases hx' with rfl | rfl | rfl
      · exact absurd rfl hne
      · exact regexURLExtractor_nil hyt
      · exact regexURLExtractor_nil hym
    rw [extractMusicURL_single_active ((hA.mem_iff).mpr (by simp [urlProcessors]))
          (hoth _ hA) (regexURLExtractor_ne_noURL hsp),
        extractMusicURL_single_active ((hB.mem_iff).mpr (by simp [urlProcessors]))
          (hoth _ hB) (regexURLExtractor_ne_noURL hsp)]
  · exact absurd h1 (by simp [activeCount, hsp, hyt, hym])
  · exact absurd h1 (by simp [activeCount, hsp, hyt, hym])
  · exact absurd h1 (by simp [activeCount, hsp, hyt, hym])

/-- C8 amended, at a concrete single-provider text and two concrete orders. -/
theorem extractMusicURL_order_independent_single_provider_witness :
    extractMusicURL urlProcessors stubTitleParsers "x https://youtu.be/abc y"
      = extractMusicURL urlProcessors.reverse stubTitleParsers "x https://youtu.be/abc y" :=
  extractMusicURL_order_independent_single_provider _ _ _ _
    (List.Perm.refl _) (List.reverse_perm _) (by decide)

/-- C9 counterexample: with spotify present in the extractor registry but absent
from the resolver registry, a message matching the Spotify pattern drives the
code into calling the nil function obtained from the map lookup — a runtime
panic, not a returned contract-violation error. -/
theorem extractMusicURL_missing_resolver_panics_cex :
    extractMusicURL [(SpotifyProvider, SpotifyURLExtractor)] []
      "https://open.spotify.com/track/abc" = .panics := by decide

/-- C9 amended: extraction never panics when every provider tag emitted by a
registered extractor has an entry in the resolver registry; when that bijection
is violated the code panics via a nil function call instead of failing with a
contract-violation error (see the counterexample). -/
theorem extractMusicURL_no_panic_with_total_resolvers
    {procs : List (ExtractProvider × MusicURLExtractorFunc)}
    {tp : List (ExtractProvider × TitleExtractorFunc)} {text : String}
    (hcov : ∀ x ∈ procs, ∀ t : String,
      (tp.lookup ((x.2 : MusicURLExtractorFunc) t).2).isSome = true) :
    extractMusicURL procs tp text ≠ .panics := by
  induction procs with
  | nil => simp [extractMusicURL]
  | cons x rest ih =>
    obtain ⟨xk, xf⟩ := x
    rcases hft : xf text with ⟨r, p⟩
    cases r with
    | error e =>
      by_cases he : e = .noURLFound
      · subst he
        rw [extractMusicURL_cons_skip (by rw [hft])]
        exact ih (fun y hy => hcov y (List.mem_cons_of_mem _ hy))
      · rw [extractMusicURL_cons_err hft he]
        simp
    | ok url =>
      have hsm : (tp.lookup p).isSome = true := by
        have hc : (tp.lookup ((xf text).2)).isSome = true :=
          hcov (xk, xf) (List.mem_cons_self _ _) text
        rw [hft] at hc
        exact hc
      rw [extractMusicURL_cons_ok hft]
      rcases hlk : tp.lookup p with _ | g
      · rw [hlk] at hsm; simp at hsm
      · rcases hg : g url with e | t <;> simp [hg]

/-- C9 amended, at the shipped registry with stub resolvers. -/
theorem extractMusicURL_no_panic_with_total_resolvers_witness :
    extractMusicURL urlProcessors stubTitleParsers "anything" ≠ .panics :=
  extractMusicURL_no_panic_with_total_resolvers (by
    intro x hx t
    simp only [urlProcessors, List.mem_cons, List.not_mem_nil, or_false] at hx
    rcases hx with rfl | rfl | rfl <;> rfl)

/-! ## Helper lemmas on SummarizeThread and createCSV (C2, C10) -/

theorem collectLinks_eq_okLinks {procs : List (ExtractProvider × MusicURLExtractorFunc)}
    {tp : List (ExtractProvider × TitleExtractorFunc)} {msgs : List SlackMessage}
    (hnp : ∀ msg ∈ msgs, extractMusicURL procs tp msg.Text ≠ .panics) :
    collectLinks procs tp msgs = .ok (okLinks procs tp msgs) := by
  induction msgs with
  | nil => rfl
  | cons msg rest ih =>
    have hrest := ih (fun m hm => hnp m (List.mem_cons_of_mem _ hm))
    rcases he : extractMusicURL procs tp msg.Text with _ | e | m
    · exact absurd he (hnp msg (List.mem_cons_self _ _))
    · simp [collectLinks, he, hrest, okLinks, okLinkOf]
    · simp [collectLinks, he, hrest, okLinks, okLinkOf]

theorem okLinks_length_add_fails {procs : List (ExtractProvider × MusicURLExtractorFunc)}
    {tp : List (ExtractProvider × TitleExtractorFunc)} {msgs : List SlackMessage}
    (hnp : ∀ msg ∈ msgs, extractMusicURL procs tp msg.Text ≠ .panics) :
    (okLinks procs tp msgs).length + msgs.countP (failsOn procs tp) = msgs.length := by
  induction msgs with
  | nil => rfl
  | cons msg rest ih =>
    have hrest := ih (fun m hm => hnp m (List.mem_cons_of_mem _ hm))
    rcases he : extractMusicURL procs tp msg.Text with _ | e | m
    · exact absurd he (hnp msg (List.mem_cons_self _ _))
    · have hx : failsOn procs tp msg = true := by simp [failsOn, he]
      simp [okLinks, okLinkOf, List.filterMap_cons, he, List.countP_cons, hx]
      simp [okLinks, okLinkOf] at hrest
      omega
    · have hx : failsOn procs tp msg = false := by simp [failsOn, he]
      simp [okLinks, okLinkOf, List.filterMap_cons, he, List.countP_cons, hx]
      simp [okLinks, okLinkOf] at hrest
      omega

theorem extractMusicURL_ok_typ {procs : List (ExtractProvider × MusicURLExtractorFunc)}
    {tp : List (ExtractProvider × TitleExtractorFunc)} {text : String} {m : parsedMusicLink}
    (hreal : ∀ x ∈ procs, x ∈ urlProcessors)
    (h : extractMusicURL procs tp text = .ok m) :
    m.typ = SpotifyProvider ∨ m.typ = YouTubeProvider ∨ m.typ = YoutTubeMusicProvider := by
  induction procs with
  | nil => simp [extractMusicURL] at h
  | cons x rest ih =>
    obtain ⟨xk, xf⟩ := x
    rcases hft : xf text with ⟨r, p⟩
    cases r with
    | error e =>
      by_cases he : e = .noURLFound
      · subst he
        rw [extractMusicURL_cons_skip (by rw [hft])] at h
        exact ih (fun y hy => hreal y (List.mem_cons_of_mem _ hy)) h
      · rw [extractMusicURL_cons_err hft he] at h
        exact absurd h (by simp)
    | ok url =>
      have hp : p = SpotifyProvider ∨ p = YouTubeProvider ∨ p = YoutTubeMusicProvider := by
        have hx := hreal (xk, xf) (List.mem_cons_self _ _)
        simp only [urlProcessors, List.mem_cons, List.not_mem_nil, or_false] at hx
        rcases hx with h3 | h3 | h3
        · left
          injection h3 with h4 h5
          rw [h5] at hft
          have h6 := congrArg Prod.snd hft
          simpa [SpotifyURLExtractor] using h6.symm
        · right; left
          injection h3 with h4 h5
          rw [h5] at hft
          have h6 := congrArg Prod.snd hft
          simpa [YouTubeURLExtractor] using h6.symm
        · right; right
          injection h3 with h4 h5
          rw [h5] at hft
          have h6 := congrArg Prod.snd hft
          simpa [YouTubeMusicURLExtractor] using h6.symm
      rw [extractMusicURL_cons_ok hft] at h
      rcases hlk : tp.lookup p with _ | g
      · rw [hlk] at h; exact absurd h (by simp)
      · rw [hlk] at h
        rcases hg : g url with e | t
        · simp only [hg] at h
          exact absurd h (by simp)
        · simp only [hg] at h
          injection h with h2
          rw [← h2]
          simpa using hp

theorem okLinks_mem {procs : List (ExtractProvider × MusicURLExtractorFunc)}
    {tp : List (ExtractProvider × TitleExtractorFunc)} {msgs : List SlackMessage}
    {m : parsedMusicLink} (h : m ∈ okLinks procs tp msgs) :
    ∃ msg ∈ msgs, extractMusicURL procs tp msg.Text = .ok m := by
  rcases List.mem_filterMap.mp h with ⟨msg, hmsg, hf⟩
  refine ⟨msg, hmsg, ?_⟩
  unfold okLinkOf at hf
  rcases he : extractMusicURL procs tp msg.Text with _ | e | m'
  · rw [he] at hf; cases hf
  · rw [he] at hf; cases hf
  · rw [he] at hf
    simp only [Option.some.injEq] at hf
    rw [hf]

theorem recordOf_known {m : parsedMusicLink}
    (h : m.typ = SpotifyProvider ∨ m.typ = YouTubeProvider ∨ m.typ = YoutTubeMusicProvider) :
    recordOf m ≠ none := by
  unfold recordOf
  rcases h with h | h | h
  · rw [if_pos h]; simp
  · rw [if_neg (by rw [h]; decide), if_pos h]; simp
  · rw [if_neg (by rw [h]; decide), if_neg (by rw [h]; decide), if_pos h]; simp

theorem csvBody_length_known {pmls : List parsedMusicLink}
    (h : ∀ m ∈ pmls, recordOf m ≠ none) :
    (csvBody pmls).length = pmls.length := by
  induction pmls with
  | nil => rfl
  | cons m rest ih =>
    rcases hr : recordOf m with _ | r
    · exact absurd hr (h m (List.mem_cons_self _ _))
    · simp [csvBody, hr, ih (fun y hy => h y (List.mem_cons_of_mem _ hy))]

theorem csvBody_eq_filterMap (pmls : List parsedMusicLink) :
    csvBody pmls = pmls.filterMap recordOf := by
  induction pmls with
  | nil => rfl
  | cons m rest ih => cases hr : recordOf m <;> simp [csvBody, hr, ih]

/-- C2: with any iteration order over the shipped extractor registry and any
resolver registry, a thread of N messages of which exactly K fail extraction or
resolution (no panic occurs) is summarized without error into an artifact whose
data rows are exactly the links of the N − K succeeding messages, one row each,
in original relative message order (okLinks is an order-preserving filterMap
over the message list). -/
theorem summarizeThread_skips_failed_messages
    (procs : List (ExtractProvider × MusicURLExtractorFunc))
    (tp : List (ExtractProvider × TitleExtractorFunc))
    (msgs : List SlackMessage) (channelID threadTS : String) (K : Nat)
    (hreal : ∀ x ∈ procs, x ∈ urlProcessors)
    (hnp : ∀ msg ∈ msgs, extractMusicURL procs tp msg.Text ≠ .panics)
    (hK : msgs.countP (failsOn procs tp) = K) :
    SummarizeThread procs tp msgs channelID threadTS
      = .ok { Content := (createCSV (okLinks procs tp msgs)).1
              Filename := channelID ++ "-" ++ threadTS ++ ".csv"
              Title := channelID ++ "-" ++ threadTS ++ ".csv"
              InitialComment := "Found " ++ toString (okLinks procs tp msgs).length
                ++ " music URLs in this thread"
              Channel := channelID
              ThreadTimestamp := threadTS
              FileSize := (createCSV (okLinks procs tp msgs)).2 }
  ∧ okLinks procs tp msgs = msgs.filterMap (okLinkOf procs tp)
  ∧ (okLinks procs tp msgs).length = msgs.length - K
  ∧ (csvBody (okLinks procs tp msgs)).length = (okLinks procs tp msgs).length := by
  refine ⟨?_, rfl, ?_, ?_⟩
  · rw [SummarizeThread, collectLinks_eq_okLinks hnp]
  · have h5 : (okLinks procs tp msgs).length + msgs.countP (failsOn procs tp) = msgs.length :=
      okLinks_length_add_fails hnp
    omega
  · apply csvBody_length_known
    intro m hm
    rcases okLinks_mem hm with ⟨msg, _, hex⟩
    exact recordOf_known (extractMusicURL_ok_typ hreal hex)

/-- C2 at a concrete three-message thread with exactly one failing message. -/
theorem summarizeThread_skips_failed_messages_witness :
    SummarizeThread urlProcessors stubTitleParsers
        [⟨"check https://open.spotify.com/track/abc123", "u1"⟩,
         ⟨"no links here", "u2"⟩,
         ⟨"https://youtu.be/xyz789", "u3"⟩] "C01" "169.1"
      = .ok { Content := (createCSV (okLinks urlProcessors stubTitleParsers
                [⟨"check https://open.spotify.com/track/abc123", "u1"⟩,
                 ⟨"no links here", "u2"⟩,
                 ⟨"https://youtu.be/xyz789", "u3"⟩])).1
              Filename := "C01" ++ "-" ++ "169.1" ++ ".csv"
              Title := "C01" ++ "-" ++ "169.1" ++ ".csv"
              InitialComment := "Found " ++ toString (okLinks urlProcessors stubTitleParsers
                [⟨"check https://open.spotify.com/track/abc123", "u1"⟩,
                 ⟨"no links here", "u2"⟩,
                 ⟨"https://youtu.be/xyz789", "u3"⟩]).length ++ " music URLs in this thread"
              Channel := "C01"
              ThreadTimestamp := "169.1"
              FileSize := (createCSV (okLinks urlProcessors stubTitleParsers
                [⟨"check https://open.spotify.com/track/abc123", "u1"⟩,
                 ⟨"no links here", "u2"⟩,
                 ⟨"https://youtu.be/xyz789", "u3"⟩])).2 }
  ∧ okLinks urlProcessors stubTitleParsers
        [⟨"check https://open.spotify.com/track/abc123", "u1"⟩,
         ⟨"no links here", "u2"⟩,
         ⟨"https://youtu.be/xyz789", "u3"⟩]
      = [⟨"check https://open.spotify.com/track/abc123", "u1"⟩,
         ⟨"no links here", "u2"⟩,
         ⟨"https://youtu.be/xyz789", "u3"⟩].filterMap
          (okLinkOf urlProcessors stubTitleParsers)
  ∧ (okLinks urlProcessors stubTitleParsers
        [⟨"check https://open.spotify.com/track/abc123", "u1"⟩,
         ⟨"no links here", "u2"⟩,
         ⟨"https://youtu.be/xyz789", "u3"⟩]).length = 3 - 1
  ∧ (csvBody (okLinks urlProcessors stubTitleParsers
        [⟨"check https://open.spotify.com/track/abc123", "u1"⟩,
         ⟨"no links here", "u2"⟩,
         ⟨"https://youtu.be/xyz789", "u3"⟩])).length
      = (okLinks urlProcessors stubTitleParsers
        [⟨"check https://open.spotify.com/track/abc123", "u1"⟩,
         ⟨"no links here", "u2"⟩,
         ⟨"https://youtu.be/xyz789", "u3"⟩]).length :=
  summarizeThread_skips_failed_messages urlProcessors stubTitleParsers
    [⟨"check https://open.spotify.com/track/abc123", "u1"⟩,
     ⟨"no links here", "u2"⟩,
     ⟨"https://youtu.be/xyz789", "u3"⟩] "C01" "169.1" 1
    (fun x hx => hx) (by decide) (by decide)

/-- C10: the artifact records are the fixed header followed by one semicolon-row
per link with a known provider tag, in list order, the URL sitting only in its
provider's column; an unknown tag yields no row while the InitialComment's
"Found N" still counts it (so the count can exceed the row count, as the final
conjunct shows on a one-link list with zero data rows). -/
theorem createCSV_rows_columns_and_count :
    (∀ pmls, createCSVRecords pmls = csvHeader :: csvBody pmls)
  ∧ writeRecord ';' csvHeader = "Title;Spotify URL;YouTube URL;YouTube Music URL\n"
  ∧ (∀ pml : parsedMusicLink, pml.typ = SpotifyProvider →
      recordOf pml = some [pml.Title, pml.URL, "", ""])
  ∧ (∀ pml : parsedMusicLink, pml.typ = YouTubeProvider →
      recordOf pml = some [pml.Title, "", pml.URL, ""])
  ∧ (∀ pml : parsedMusicLink, pml.typ = YoutTubeMusicProvider →
      recordOf pml = some [pml.Title, "", "", pml.URL])
  ∧ (∀ pml : parsedMusicLink, pml.typ ≠ SpotifyProvider → pml.typ ≠ YouTubeProvider →
      pml.typ ≠ YoutTubeMusicProvider → recordOf pml = none)
  ∧ (∀ pmls, csvBody pmls = pmls.filterMap recordOf)
  ∧ (createCSVRecords [⟨"T", "u", "other"⟩] = [csvHeader]
      ∧ SummarizeThread [("other", fun _ => (.ok "u", "other"))]
          [("other", fun _ => .ok "T")] [⟨"msg", "user"⟩] "C" "TS"
        = .ok { Content := "Title;Spotify URL;YouTube URL;YouTube Music URL\n"
                Filename := "C-TS.csv"
                Title := "C-TS.csv"
                InitialComment := "Found 1 music URLs in this thread"
                Channel := "C"
                ThreadTimestamp := "TS"
                FileSize := 48 }) := by
  refine ⟨fun pmls => rfl, by decide, fun pml h => ?_, fun pml h => ?_, fun pml h => ?_,
          fun pml h1 h2 h3 => ?_, csvBody_eq_filterMap, by decide, by decide⟩
  · unfold recordOf
    rw [if_pos h]
  · unfold recordOf
    rw [if_neg (by rw [h]; decide), if_pos h]
  · unfold recordOf
    rw [if_neg (by rw [h]; decide), if_neg (by rw [h]; decide), if_pos h]
  · unfold recordOf
    rw [if_neg h1, if_neg h2, if_neg h3]

/-- C10 at concrete links of each provider tag. -/
theorem createCSV_rows_columns_and_count_witness :
    recordOf ⟨"t1", "u1", SpotifyProvider⟩ = some ["t1", "u1", "", ""]
  ∧ recordOf ⟨"t2", "u2", YouTubeProvider⟩ = some ["t2", "", "u2", ""]
  ∧ recordOf ⟨"t3", "u3", YoutTubeMusicProvider⟩ = some ["t3", "", "", "u3"]
  ∧ recordOf ⟨"t4", "u4", "soundcloud"⟩ = none :=
  ⟨createCSV_rows_columns_and_count.2.2.1 _ rfl,
   createCSV_rows_columns_and_count.2.2.2.1 _ rfl,
   createCSV_rows_columns_and_count.2.2.2.2.1 _ rfl,
   createCSV_rows_columns_and_count.2.2.2.2.2.1 _ (by decide) (by decide) (by decide)⟩

/-! ## Helper lemmas on the bot handlers (C3, C4, C6) -/

theorem processThread_no_ack (cfg : BotCfg) (oracle : SlackAPIOracle) (ch ts : String) :
    ∀ a ∈ (processThread cfg oracle ch ts).1, isAck a = false := by
  intro a ha
  rcases hcr : oracle.conversationReplies with e | msgs
  · simp only [processThread, hcr] at ha
    simp at ha
    subst ha
    rfl
  · rcases hst : SummarizeThread cfg.procs cfg.tp msgs ch ts with _ | e | reply
    · simp only [processThread, hcr, hst] at ha
      simp at ha
      rcases ha with ha | ha <;> subst ha <;> rfl
    · simp only [processThread, hcr, hst] at ha
      simp at ha
      rcases ha with ha | ha <;> subst ha <;> rfl
    · rcases hup : oracle.uploadErr with _ | e
      · simp only [processThread, hcr, hst, hup] at ha
        simp at ha
        rcases ha with ha | ha | ha <;> subst ha <;> rfl
      · simp only [processThread, hcr, hst, hup] at ha
        simp at ha
        rcases ha with ha | ha | ha <;> subst ha <;> rfl

theorem handleMentions_no_ack (cfg : BotCfg) (oracle : SlackAPIOracle)
    (event : AppMentionEvent) :
    ∀ a ∈ (handleMentions cfg oracle event).1, isAck a = false := by
  intro a ha
  by_cases h1 : event.ThreadTimeStamp = ""
  · rcases hpe : oracle.postEphemeralErr with _ | e
    · simp only [handleMentions, if_pos h1, hpe] at ha
      simp at ha
      subst ha
      rfl
    · simp only [handleMentions, if_pos h1, hpe] at ha
      simp at ha
      subst ha
      rfl
  · by_cases h2 : containsSubstr event.Text CommandSummarize = true
    · have hh : (handleMentions cfg oracle event).1
          = (processThread cfg oracle event.Channel event.ThreadTimeStamp).1 := by
        simp only [handleMentions, if_neg h1, if_pos h2]
      rw [hh] at ha
      exact processThread_no_ack cfg oracle event.Channel event.ThreadTimeStamp a ha
    · simp only [handleMentions, if_neg h1, if_neg h2] at ha
      simp at ha

/-- C4: for every events-api event whose payload downcasts to an
EventsAPIEvent, the handler's very first outbound call is the acknowledgment of
that event's own request identifier — before the callback sub-type and the
inner event are inspected — and no later call is another acknowledgment (the
acknowledgment count over the whole trace is exactly one). -/
theorem eventsAPI_ack_first_and_once (cfg : BotCfg) (oracle : SlackAPIOracle)
    (evt : SocketmodeEvent) (api : EventsAPIEvent) (h : evt.data = some api) :
    ((handleEventsAPI cfg oracle evt).1).head? = some (.ack evt.request)
  ∧ ((handleEventsAPI cfg oracle evt).1).countP isAck = 1 := by
  simp only [handleEventsAPI, h]
  by_cases ht : api.type ≠ CallbackEvent
  · rw [if_pos ht]
    exact ⟨rfl, by simp [isAck]⟩
  · rw [if_neg ht]
    cases hin : api.innerEvent with
    | appMention ev =>
      refine ⟨rfl, ?_⟩
      have hz : ((handleMentions cfg oracle ev).1).countP isAck = 0 :=
        List.countP_eq_zero.mpr (fun a ha => by simp [handleMentions_no_ack cfg oracle ev a ha])
      simp [List.countP_cons, isAck, hz]
    | other t => exact ⟨rfl, by simp [isAck]⟩

/-- C4 at a concrete mention event. -/
theorem eventsAPI_ack_first_and_once_witness :
    ((handleEventsAPI ⟨urlProcessors, stubTitleParsers⟩ ⟨none, .ok [], none⟩
        ⟨some ⟨CallbackEvent, .appMention ⟨"U1", "C1", "summarize", "123.45"⟩⟩, 7⟩).1).head?
      = some (.ack 7)
  ∧ ((handleEventsAPI ⟨urlProcessors, stubTitleParsers⟩ ⟨none, .ok [], none⟩
        ⟨some ⟨CallbackEvent, .appMention ⟨"U1", "C1", "summarize", "123.45"⟩⟩, 7⟩).1).countP isAck
      = 1 :=
  eventsAPI_ack_first_and_once ⟨urlProcessors, stubTitleParsers⟩ ⟨none, .ok [], none⟩
    ⟨some ⟨CallbackEvent, .appMention ⟨"U1", "C1", "summarize", "123.45"⟩⟩, 7⟩
    ⟨CallbackEvent, .appMention ⟨"U1", "C1", "summarize", "123.45"⟩⟩ rfl

/-- C3: a mention with an empty thread timestamp makes the handler emit exactly
one outbound call — the ephemeral notice to the mentioning user in the
originating channel — and in particular the trace contains no thread-replies
fetch and no summarizer invocation, whatever the message text says. -/
theorem mention_empty_thread_ephemeral (cfg : BotCfg) (oracle : SlackAPIOracle)
    (event : AppMentionEvent) (h : event.ThreadTimeStamp = "") :
    (handleMentions cfg oracle event).1
      = [.postEphemeral event.Channel event.User
          "Bot is only usable in threads to summarize them"]
  ∧ ((handleMentions cfg oracle event).1).countP isSummarizeCall = 0
  ∧ ((handleMentions cfg oracle event).1).countP isRepliesFetch = 0 := by
  have h1 : (handleMentions cfg oracle event).1
      = [.postEphemeral event.Channel event.User
          "Bot is only usable in threads to summarize them"] := by
    unfold handleMentions
    rw [if_pos h]
    rcases oracle.postEphemeralErr with _ | e <;> rfl
  exact ⟨h1, by rw [h1]; rfl, by rw [h1]; rfl⟩

/-- C3 at a concrete mention whose text even contains the command keyword. -/
theorem mention_empty_thread_ephemeral_witness :
    (handleMentions ⟨urlProcessors, stubTitleParsers⟩ ⟨none, .ok [], none⟩
        ⟨"U1", "C1", "please summarize this", ""⟩).1
      = [.postEphemeral "C1" "U1" "Bot is only usable in threads to summarize them"]
  ∧ ((handleMentions ⟨urlProcessors, stubTitleParsers⟩ ⟨none, .ok [], none⟩
        ⟨"U1", "C1", "please summarize this", ""⟩).1).countP isSummarizeCall = 0
  ∧ ((handleMentions ⟨urlProcessors, stubTitleParsers⟩ ⟨none, .ok [], none⟩
        ⟨"U1", "C1", "please summarize this", ""⟩).1).countP isRepliesFetch = 0 :=
  mention_empty_thread_ephemeral ⟨urlProcessors, stubTitleParsers⟩ ⟨none, .ok [], none⟩
    ⟨"U1", "C1", "please summarize this", ""⟩ rfl

/-- C6: a mention inside a thread whose text does not contain "summarize"
returns the wrapped invalid-command error with an empty trace: no ephemeral, no
thread-replies fetch, no summarizer invocation. -/
theorem mention_invalid_command (cfg : BotCfg) (oracle : SlackAPIOracle)
    (event : AppMentionEvent) (h1 : event.ThreadTimeStamp ≠ "")
    (h2 : containsSubstr event.Text CommandSummarize = false) :
    handleMentions cfg oracle event
      = ([], .fails (.wrap "parsing command" .invalidCommandType)) := by
  unfold handleMentions
  rw [if_neg h1, if_neg (by simp [h2])]

/-- C6 at a concrete threaded mention without the keyword. -/
theorem mention_invalid_command_witness :
    handleMentions ⟨urlProcessors, stubTitleParsers⟩ ⟨none, .ok [], none⟩
        ⟨"U1", "C1", "hello there", "169.1"⟩
      = ([], .fails (.wrap "parsing command" .invalidCommandType)) :=
  mention_invalid_command ⟨urlProcessors, stubTitleParsers⟩ ⟨none, .ok [], none⟩
    ⟨"U1", "C1", "hello there", "169.1"⟩ (by decide) (by decide)

/-- C7: for the Spotify title resolver on a fetched response: a non-200 status
is ErrRequestFailed; a 200 body without og:title is ErrNoTitleFound; with
og:title but no og:description the bare (trimmed) title is returned; with both
present but no " · " separator in the description, the raw description is
joined to the title with " - " instead of failing.  The embedding is a total
function, so no body shape can crash it. -/
theorem spotifyTitleExtractor_cases (resp : HTTPResponse) :
    (resp.StatusCode ≠ 200 → SpotifyTitleExtractor resp = .error .requestFailed)
  ∧ (resp.StatusCode = 200 →
      firstCapture (metaCaptureAt "og:title") resp.Body.data = none →
      SpotifyTitleExtractor resp = .error .noTitleFound)
  ∧ (∀ t, resp.StatusCode = 200 →
      firstCapture (metaCaptureAt "og:title") resp.Body.data = some t →
      firstCapture (metaCaptureAt "og:description") resp.Body.data = none →
      SpotifyTitleExtractor resp = .ok (trimSpace (String.mk t)))
  ∧ (∀ t d, resp.StatusCode = 200 →
      firstCapture (metaCaptureAt "og:title") resp.Body.data = some t →
      firstCapture (metaCaptureAt "og:description") resp.Body.data = some d →
      splitOnce " · ".data (trimSpace (String.mk d)).data = none →
      SpotifyTitleExtractor resp
        = .ok (trimSpace (String.mk d) ++ " - " ++ trimSpace (String.mk t))) := by
  refine ⟨fun h => ?_, fun h ht => ?_, fun t h ht hd => ?_, fun t d h ht hd hs => ?_⟩
  · unfold SpotifyTitleExtractor
    rw [if_pos h]
  · unfold SpotifyTitleExtractor
    rw [if_neg (by simp [h]), ht]
  · unfold SpotifyTitleExtractor
    rw [if_neg (by simp [h]), ht, hd]
  · unfold SpotifyTitleExtractor
    rw [if_neg (by simp [h])]
    simp only [ht, hd]
    rw [hs]

/-- C7 at concrete responses for all four behaviors. -/
theorem spotifyTitleExtractor_cases_witness :
    SpotifyTitleExtractor ⟨500, "whatever"⟩ = .error .requestFailed
  ∧ SpotifyTitleExtractor ⟨200, "<html>no meta tags</html>"⟩ = .error .noTitleFound
  ∧ SpotifyTitleExtractor ⟨200, "<html><meta property=\"og:title\" content=\" Song \"/></html>"⟩
      = .ok (trimSpace (String.mk " Song ".data))
  ∧ SpotifyTitleExtractor
        ⟨200, "<html><meta property=\"og:title\" content=\"Song\"/><meta property=\"og:description\" content=\"JustArtist\"/></html>"⟩
      = .ok (trimSpace (String.mk "JustArtist".data) ++ " - "
          ++ trimSpace (String.mk "Song".data)) :=
  ⟨(spotifyTitleExtractor_cases _).1 (by decide),
   (spotifyTitleExtractor_cases _).2.1 rfl (by decide),
   (spotifyTitleExtractor_cases _).2.2.1 _ rfl (by decide) (by decide),
   (spotifyTitleExtractor_cases _).2.2.2 _ _ rfl (by decide) (by decide) (by decide)⟩
